import Mathlib

/-!
# Verification of the shift-maker schedule grid statistics engine

Shallow embedding of the decision logic of `src/static/app.js`
(a staff×date work-shift grid renderer): the badge classifier
(`getStatBadge`), the cell classifier (`getCellClass` and the `isFixed`
computation), the calendar classifier (`getDayClass`), the row and column
statistics aggregators of `renderTable`, the grid assembly, and the preset
store operations (`savePreset`, `deletePreset`, preset lookup).

JavaScript numbers that hold counts and thresholds are modelled as `Int`
(counts that are provably non-negative as `Nat`); JavaScript arrays as
`List`; `undefined`/missing lookups as `Option`; a JavaScript `TypeError`
(reading a property of `undefined`) as the `Except.error` branch of an
`Except Unit` computation.
-/

namespace ShiftMaker

/-- Severity level of a statistics badge (CSS classes
`stat-badge-ok` / `stat-badge-warning` / `stat-badge-danger`). -/
inductive Severity
  | ok
  | warning
  | danger
  deriving Repr, DecidableEq

/-- Result of `getStatBadge`: either a styled badge span with a severity,
or the bare value interpolated with no badge markup (the final
`return ${value}` fall-through). -/
inductive BadgeResult
  | badge : Severity → Int → BadgeResult
  | plain : Int → BadgeResult
  deriving Repr, DecidableEq

/-- `getStatBadge(value, target, type)` from `app.js` lines 514-537.
`night`: danger when `value >= target && target > 0`, warning when
`value >= target - 1 && target > 0`, else ok.
`off`: by `Math.abs(value - target)`: `>= 2` danger, `>= 1` warning, else ok.
Any other `type`: the bare value, unstyled. -/
def getStatBadge (value target : Int) (type : String) : BadgeResult :=
  if type = "night" then
    if value ≥ target ∧ target > 0 then .badge .danger value
    else if value ≥ target - 1 ∧ target > 0 then .badge .warning value
    else .badge .ok value
  else if type = "off" then
    let diff := |value - target|
    if diff ≥ 2 then .badge .danger value
    else if diff ≥ 1 then .badge .warning value
    else .badge .ok value
  else .plain value

/-- C1: for the night metric with target `T > 0`, severity is danger iff
`v ≥ T`, warning iff `v = T - 1`, ok iff `v < T - 1`; with `T ≤ 0` the
severity is ok for every `v`. -/
theorem c1_night_badge :
    (∀ v t : Int, 0 < t →
      (getStatBadge v t "night" = .badge .danger v ↔ t ≤ v) ∧
      (getStatBadge v t "night" = .badge .warning v ↔ v = t - 1) ∧
      (getStatBadge v t "night" = .badge .ok v ↔ v < t - 1)) ∧
    (∀ v t : Int, t ≤ 0 → getStatBadge v t "night" = .badge .ok v) := by
  constructor
  · intro v t ht
    simp only [getStatBadge, if_pos rfl]
    refine ⟨?_, ?_, ?_⟩ <;> split_ifs with h1 h2 <;> simp <;> omega
  · intro v t ht
    simp only [getStatBadge, if_pos rfl]
    split_ifs with h1 h2 <;> simp <;> omega

/-- Concrete instantiation of `c1_night_badge` at `v = 5`, `t = 5`
(danger) and at `v = 7`, `t = 0` (ok when the target is non-positive). -/
theorem c1_night_badge_witness :
    ((0 : Int) < 5 ∧ getStatBadge 5 5 "night" = .badge .danger 5) ∧
    ((0 : Int) ≤ 0 ∧ getStatBadge 7 0 "night" = .badge .ok 7) :=
  ⟨⟨by decide, ((c1_night_badge.1 5 5 (by decide)).1).mpr (by decide)⟩,
   ⟨by decide, c1_night_badge.2 7 0 (by decide)⟩⟩

/-- C2: for the off metric, severity is danger iff `|v - T| ≥ 2`,
warning iff `|v - T| = 1`, ok iff `v = T`. -/
theorem c2_off_badge (v t : Int) :
    (getStatBadge v t "off" = .badge .danger v ↔ 2 ≤ |v - t|) ∧
    (getStatBadge v t "off" = .badge .warning v ↔ |v - t| = 1) ∧
    (getStatBadge v t "off" = .badge .ok v ↔ v = t) := by
  have hne : ("off" : String) ≠ "night" := by decide
  simp only [getStatBadge, if_neg hne, if_pos rfl]
  rcases abs_cases (v - t) with ⟨ha, hb⟩ | ⟨ha, hb⟩ <;>
    rw [ha] <;>
    refine ⟨?_, ?_, ?_⟩ <;> split_ifs with h1 h2 <;> simp <;> omega

/-- C3 counterexample: on the unknown metric kind `"weird"` the classifier
returns the bare, unstyled value (`plain 3`) — it reports no error, refuting
the claim that a malformed metric kind fails loudly. -/
theorem c3_counterexample : getStatBadge 3 5 "weird" = .plain 3 := by decide

/-- C3 amended: for every metric kind other than `"night"` and `"off"`, the
classifier silently returns the bare value with no badge styling and no
error. -/
theorem c3_amended (v t : Int) (ty : String)
    (hn : ty ≠ "night") (ho : ty ≠ "off") :
    getStatBadge v t ty = .plain v := by
  simp [getStatBadge, hn, ho]

/-- Concrete instantiation of `c3_amended` at the metric kind `"total"`. -/
theorem c3_amended_witness :
    ("total" : String) ≠ "night" ∧ ("total" : String) ≠ "off" ∧
    getStatBadge 4 9 "total" = .plain 4 :=
  ⟨by decide, by decide, c3_amended 4 9 "total" (by decide) (by decide)⟩

/-- The policy thresholds read by `renderTable` via `getSettings()`
(`app.js` lines 378-387); each is `parseInt(...) || default`, an integer. -/
structure Settings where
  dayLeaderCount : Int
  nightLeaderCount : Int
  nightEligibleCount : Int
  requiredPerDay : Int
  maxNightShifts : Int
  daysOff : Int
  deriving Repr, DecidableEq

/-- The built-in preset values of `DEFAULT_PRESETS["デフォルト"]`
(`app.js` lines 59-68). -/
def DEFAULT_PRESET : Settings :=
  { dayLeaderCount := 10, nightLeaderCount := 8, nightEligibleCount := 17,
    requiredPerDay := 5, maxNightShifts := 5, daysOff := 9 }

/-- `SHIFT_CLASS_MAP` from `app.js` lines 182-192: shift code → CSS class. -/
def SHIFT_CLASS_MAP : List (String × String) :=
  [("日", "shift-day"), ("夜", "shift-night"), ("明", "shift-morning-after"),
   ("公", "shift-holiday"), ("希", "shift-requested"), ("委", "shift-committee"),
   ("休", "shift-other"), ("有", "shift-other"), ("研", "shift-other")]

/-- `getCellClass(shift)`: `SHIFT_CLASS_MAP[shift] || ""` (line 487). -/
def getCellClass (shift : String) : String :=
  (SHIFT_CLASS_MAP.lookup shift).getD ""

/-- The cell read `schedule[i] && schedule[i][j] ? schedule[i][j] : ""`
(line 430): a missing row, a missing cell, or a falsy (empty-string) cell all
yield the empty string. -/
def cellShift (schedule : List (List String)) (i j : Nat) : String :=
  match schedule.get? i with
  | none => ""
  | some row =>
    match row.get? j with
    | none => ""
    | some s => if s = "" then "" else s

/-- JavaScript `String.prototype.trim`: strip leading and trailing
whitespace, modelled on the string's character list. -/
def jsTrim (s : String) : String :=
  ⟨((s.data.dropWhile Char.isWhitespace).reverse.dropWhile
      Char.isWhitespace).reverse⟩

/-- The fixed-cell test
`original ? (original[i][j] && original[i][j].trim() !== "") : false`
(line 431). When `original` is supplied but lacks row `i`, the read
`original[i][j]` indexes `undefined`: a thrown `TypeError`, modelled as
`Except.error ()`. A present row with a missing cell `j` gives `undefined`,
which is falsy, so the conjunction short-circuits to `false`. -/
def isFixedJS (original : Option (List (List String))) (i j : Nat) :
    Except Unit Bool :=
  match original with
  | none => .ok false
  | some o =>
    match o.get? i with
    | none => .error ()
    | some row =>
      match row.get? j with
      | none => .ok false
      | some s => .ok (if s = "" then false else jsTrim s != "")

/-- One cell of the rendered body: the displayed shift value, its CSS
class, and the fixed marking, as built inside the cell loop of
`renderTable` (lines 429-441). -/
structure CellModel where
  shift : String
  cellClass : String
  isFixed : Bool
  deriving Repr, DecidableEq

/-- The per-cell computation of the body loop. -/
def classifyCell (schedule : List (List String))
    (original : Option (List (List String))) (i j : Nat) :
    Except Unit CellModel := do
  let shift := cellShift schedule i j
  let fixed ← isFixedJS original i j
  pure ⟨shift, getCellClass shift, fixed⟩

/-- For a cell whose original row exists, the fixed test succeeds and holds
iff the original cell value (an out-of-range cell reading as empty) is
non-empty after trimming. -/
theorem isFixedJS_eq_of_row (o : List (List String)) (row : List String)
    (i j : Nat) (h : o.get? i = some row) :
    isFixedJS (some o) i j = .ok (jsTrim (row.getD j "") != "") := by
  simp only [isFixedJS, h]
  cases hj : row.get? j with
  | none =>
    have hg : row.getD j "" = "" := by
      rw [List.getD_eq_getElem?_getD, ← List.get?_eq_getElem?, hj]; rfl
    rw [hg, show (jsTrim "" != "") = false from by decide]
  | some s =>
    have hg : row.getD j "" = s := by
      rw [List.getD_eq_getElem?_getD, ← List.get?_eq_getElem?, hj]; rfl
    rw [hg]
    by_cases hs : s = ""
    · subst hs
      rw [show (jsTrim "" != "") = false from by decide]
      simp
    · simp [hs]

/-- C4: with no original matrix every cell is unfixed; with an original
matrix, for a cell in an existing original row `isFixed` holds iff the
original cell's value (an out-of-range cell reading as empty) is non-empty
after trimming; and the fixed marking depends only on the original matrix,
never on the current matrix — in particular not on an empty current cell. -/
theorem c4_is_fixed :
    (∀ schedule i j, classifyCell schedule none i j =
      .ok ⟨cellShift schedule i j, getCellClass (cellShift schedule i j),
        false⟩) ∧
    (∀ (o : List (List String)) (row : List String) (i j : Nat),
      o.get? i = some row →
      isFixedJS (some o) i j = .ok (jsTrim (row.getD j "") != "")) ∧
    (∀ schedule schedule' original i j,
      (classifyCell schedule original i j).map CellModel.isFixed =
      (classifyCell schedule' original i j).map CellModel.isFixed) := by
  refine ⟨fun schedule i j => rfl,
    fun o row i j h => isFixedJS_eq_of_row o row i j h, ?_⟩
  · intro schedule schedule' original i j
    cases hfx : isFixedJS original i j <;>
      simp [classifyCell, hfx, Except.map]

/-- Concrete instantiation of `c4_is_fixed` at an original matrix whose
single cell is the whitespace-padded string `" 夜 "`. -/
theorem c4_is_fixed_witness :
    ([[" 夜 "]] : List (List String)).get? 0 = some [" 夜 "] ∧
    isFixedJS (some [[" 夜 "]]) 0 0 = .ok (jsTrim ([" 夜 "].getD 0 "") != "") :=
  ⟨rfl, c4_is_fixed.2.1 [[" 夜 "]] [" 夜 "] 0 0 rfl⟩

/-- Per-row statistics accumulated by the cell loop of `renderTable`. -/
structure RowStats where
  nightCount : Nat
  dayCount : Nat
  offCount : Nat
  deriving Repr, DecidableEq

/-- One iteration of the statistics counters (lines 438-440):
`if (shift === "夜") nightCount++; if (shift === "日") dayCount++;`
`if (["公", "希", "休", "有"].includes(shift)) offCount++`. -/
def rowStatsStep (acc : RowStats) (shift : String) : RowStats :=
  { nightCount := acc.nightCount + (if shift = "夜" then 1 else 0)
    dayCount := acc.dayCount + (if shift = "日" then 1 else 0)
    offCount := acc.offCount +
      (if shift ∈ ["公", "希", "休", "有"] then 1 else 0) }

/-- The per-row statistics of staff row `i` over `numDates` date columns. -/
def rowStats (schedule : List (List String)) (i numDates : Nat) : RowStats :=
  (List.range numDates).foldl
    (fun acc j => rowStatsStep acc (cellShift schedule i j)) ⟨0, 0, 0⟩

theorem foldl_rowStatsStep_off (l : List String) (acc : RowStats) :
    (l.foldl rowStatsStep acc).offCount =
      acc.offCount +
        l.countP (fun s => decide (s ∈ (["公", "希", "休", "有"] : List String))) := by
  induction l generalizing acc with
  | nil => simp
  | cons x xs ih =>
    rw [List.foldl_cons, ih, List.countP_cons]
    simp only [rowStatsStep]
    by_cases hx : x ∈ (["公", "希", "休", "有"] : List String)
    · simp [hx]
      omega
    · simp [hx]

/-- C5: for every staff row, `offCount` counts exactly the cells whose
effective code is one of 公, 希, 休, 有 — 研, 明 and 委 are not counted —
so the row 公, 希, 休, 明, 委 has `offCount` 3 (and adding a 有 and a 研
to the four off codes yields 4). -/
theorem c5_off_count :
    (∀ schedule i numDates,
      (rowStats schedule i numDates).offCount =
        ((List.range numDates).map (cellShift schedule i)).countP
          (fun s => decide (s ∈ (["公", "希", "休", "有"] : List String)))) ∧
    (rowStats [["公", "希", "休", "明", "委"]] 0 5).offCount = 3 ∧
    (rowStats [["公", "希", "休", "有", "研", "明", "委"]] 0 7).offCount = 4 := by
  refine ⟨?_, by decide, by decide⟩
  intro schedule i numDates
  rw [rowStats, ← List.foldl_map (cellShift schedule i) rowStatsStep,
    foldl_rowStatsStep_off]
  simp

/-- The day-column total (lines 456-460): the number of staff rows `i`
with `schedule[i] && schedule[i][j] === "日"`. -/
def dayTotal (schedule : List (List String)) (numStaff j : Nat) : Nat :=
  (List.range numStaff).foldl
    (fun acc i =>
      match schedule.get? i with
      | some row => if row.get? j = some "日" then acc + 1 else acc
      | none => acc) 0

/-- The night-column total (lines 469-473): the number of staff rows `i`
with `schedule[i] && schedule[i][j] === "夜"`. -/
def nightTotal (schedule : List (List String)) (numStaff j : Nat) : Nat :=
  (List.range numStaff).foldl
    (fun acc i =>
      match schedule.get? i with
      | some row => if row.get? j = some "夜" then acc + 1 else acc
      | none => acc) 0

/-- The day-total summary row (lines 454-465): per date column the total
together with the shortage flag `dayTotal < settings.required_staff_per_day`. -/
def daySummaryRow (settings : Settings) (schedule : List (List String))
    (numStaff numDates : Nat) : List (Nat × Bool) :=
  (List.range numDates).map fun j =>
    let t := dayTotal schedule numStaff j
    (t, decide ((t : Int) < settings.requiredPerDay))

/-- The night-total summary row (lines 467-478): per date column the total
together with the shortage flag `nightTotal < 2`. The bound `2` is a
literal in the code; the `settings` in scope are not consulted. -/
def nightSummaryRow (_settings : Settings) (schedule : List (List String))
    (numStaff numDates : Nat) : List (Nat × Bool) :=
  (List.range numDates).map fun j =>
    let t := nightTotal schedule numStaff j
    (t, decide (t < 2))

/-- C6: in the summary rows, a day column is flagged iff its total is
below `required_staff_per_day`, a night column is flagged iff its total is
below the fixed bound 2, and the night flags are independent of the whole
configuration — in particular of `max_night_shifts`. -/
theorem c6_column_flags :
    (∀ settings schedule numStaff numDates j t b,
      (daySummaryRow settings schedule numStaff numDates).get? j =
        some (t, b) →
      t = dayTotal schedule numStaff j ∧
        (b = true ↔ (t : Int) < settings.requiredPerDay)) ∧
    (∀ settings schedule numStaff numDates j t b,
      (nightSummaryRow settings schedule numStaff numDates).get? j =
        some (t, b) →
      t = nightTotal schedule numStaff j ∧ (b = true ↔ t < 2)) ∧
    (∀ s s' schedule numStaff numDates,
      nightSummaryRow s schedule numStaff numDates =
        nightSummaryRow s' schedule numStaff numDates) := by
  refine ⟨?_, ?_, fun s s' schedule numStaff numDates => rfl⟩
  · intro settings schedule numStaff numDates j t b h
    have hjlt : j < numDates := by
      by_contra hge
      have hlen : (daySummaryRow settings schedule numStaff numDates).length
          ≤ j := by
        simp only [daySummaryRow, List.length_map, List.length_range]
        omega
      rw [List.get?_eq_getElem?, List.getElem?_eq_none hlen] at h
      exact Option.noConfusion h
    have hval : (daySummaryRow settings schedule numStaff numDates).get? j =
        some (dayTotal schedule numStaff j,
          decide ((dayTotal schedule numStaff j : Int) <
            settings.requiredPerDay)) := by
      simp [daySummaryRow, List.get?_eq_getElem?, List.getElem?_range, hjlt]
    rw [hval] at h
    injection h with h'
    injection h' with ht hb
    subst ht hb
    simp
  · intro settings schedule numStaff numDates j t b h
    have hjlt : j < numDates := by
      by_contra hge
      have hlen : (nightSummaryRow settings schedule numStaff numDates).length
          ≤ j := by
        simp only [nightSummaryRow, List.length_map, List.length_range]
        omega
      rw [List.get?_eq_getElem?, List.getElem?_eq_none hlen] at h
      exact Option.noConfusion h
    have hval : (nightSummaryRow settings schedule numStaff numDates).get? j =
        some (nightTotal schedule numStaff j,
          decide (nightTotal schedule numStaff j < 2)) := by
      simp [nightSummaryRow, List.get?_eq_getElem?, List.getElem?_range, hjlt]
    rw [hval] at h
    injection h with h'
    injection h' with ht hb
    subst ht hb
    simp

/-- Concrete instantiation of `c6_column_flags` on a one-staff, one-date
grid whose single cell is a day shift, under the built-in thresholds. -/
theorem c6_column_flags_witness :
    (daySummaryRow DEFAULT_PRESET [["日"]] 1 1).get? 0 = some (1, true) ∧
    (1 = dayTotal [["日"]] 1 0 ∧
      (true = true ↔ ((1 : Nat) : Int) < DEFAULT_PRESET.requiredPerDay)) :=
  ⟨by decide, c6_column_flags.1 DEFAULT_PRESET [["日"]] 1 1 0 1 true (by decide)⟩

/-- `parseInt` applied to a non-negative decimal day label: the value of
the longest leading run of ASCII digits, `NaN` (modelled `none`) when
there is none. -/
def jsParseInt (s : String) : Option Nat :=
  let ds := s.data.takeWhile Char.isDigit
  if ds.isEmpty then none
  else some (ds.foldl (fun n c => n * 10 + (c.toNat - 48)) 0)

/-- Day count since the Gregorian epoch 0000-03-01 of the civil date
`(y, m, d)` with `1 ≤ m ≤ 12` (`d` may exceed the month length: it then
denotes overflow into following months, exactly the normalization
`new Date(year, month - 1, day)` performs). This models the ECMAScript
`MakeDay` computation used by line 502 of `app.js`. -/
def daysFromCivil (y m d : Nat) : Nat :=
  let yAdj := if m ≤ 2 then y - 1 else y
  let era := yAdj / 400
  let yoe := yAdj % 400
  let doy := (153 * (if 2 < m then m - 3 else m + 9) + 2) / 5 + (d - 1)
  let doe := yoe * 365 + yoe / 4 - yoe / 100 + doy
  era * 146097 + doe

/-- `new Date(y, m - 1, d).getDay()`: 0 = Sunday … 6 = Saturday. The
anchor `+ 3` places 1970-01-01 (day 719468 of the epoch count) on
weekday 4, Thursday. -/
def jsGetDay (y m d : Nat) : Nat := (daysFromCivil y m d + 3) % 7

/-- Reference Gregorian weekday (Sakamoto's congruence), 0 = Sunday;
written from the spec's "standard Gregorian rules", independently of the
epoch day count used to model `Date`. -/
def refWeekday (y m d : Nat) : Nat :=
  let t := [0, 3, 2, 5, 0, 3, 5, 1, 4, 6, 2, 4]
  let yAdj := if m < 3 then y - 1 else y
  (yAdj + yAdj / 4 - yAdj / 100 + yAdj / 400 + t.getD (m - 1) 0 + d) % 7

/-- Gregorian leap-year rule. -/
def isLeap (y : Nat) : Bool := (y % 4 = 0 ∧ y % 100 ≠ 0) ∨ y % 400 = 0

/-- Number of days of month `m` of year `y`. -/
def monthLength (y m : Nat) : Nat :=
  if m = 2 then (if isLeap y then 29 else 28)
  else if m ∈ [4, 6, 9, 11] then 30 else 31

/-- `getDayClass(dateStr)` (`app.js` lines 490-508) with the `targetMonth`
selection passed explicitly: `none` models an empty `targetMonth.value`,
`some (year, month)` the parsed `"YYYY-MM"` value. -/
def getDayClass (monthVal : Option (Nat × Nat)) (dateStr : String) : String :=
  match monthVal with
  | none => ""
  | some (year, month) =>
    match jsParseInt dateStr with
    | none => ""
    | some day =>
      let dow := jsGetDay year month day
      if dow = 0 then "sunday" else if dow = 6 then "saturday" else ""

/-- The classification the spec demands: the reference Gregorian weekday of
`(y, m, d)`, mapped Sunday → `"sunday"`, Saturday → `"saturday"`,
else `""`. -/
def refDayClass (y m d : Nat) : String :=
  let dow := refWeekday y m d
  if dow = 0 then "sunday" else if dow = 6 then "saturday" else ""

theorem year_decomp (n : Nat) :
    n / 4 = 100 * (n / 400) + (n % 400) / 4 ∧
    n / 100 = 4 * (n / 400) + (n % 400) / 100 := by
  constructor
  · conv_lhs => rw [show n = n % 400 + 4 * (100 * (n / 400)) by omega]
    rw [Nat.add_mul_div_left _ _ (by norm_num)]
    omega
  · conv_lhs => rw [show n = n % 400 + 100 * (4 * (n / 400)) by omega]
    rw [Nat.add_mul_div_left _ _ (by norm_num)]
    omega

/-- The modelled `Date#getDay` agrees with Sakamoto's reference weekday on
every civil date with a positive year. -/
theorem jsGetDay_eq_refWeekday (y m d : Nat) (hy : 1 ≤ y) (hm1 : 1 ≤ m)
    (hm2 : m ≤ 12) (hd : 1 ≤ d) : jsGetDay y m d = refWeekday y m d := by
  obtain ⟨h1a, h2a⟩ := year_decomp (y - 1)
  obtain ⟨h1b, h2b⟩ := year_decomp y
  interval_cases m <;>
    simp only [jsGetDay, daysFromCivil, refWeekday] <;>
    norm_num <;>
    omega

/-- C7: whenever a year-month selection is present and the day label
parses, the classifier's output on any valid date of 2000-2100 equals the
reference Gregorian weekday classification; a missing selection or an
unparsable label yields `""` (and no error). -/
theorem c7_day_class :
    (∀ (y m : Nat) (label : String) (d : Nat),
      jsParseInt label = some d →
      2000 ≤ y → y ≤ 2100 → 1 ≤ m → m ≤ 12 →
      1 ≤ d → d ≤ monthLength y m →
      getDayClass (some (y, m)) label = refDayClass y m d) ∧
    (∀ label, getDayClass none label = "") ∧
    (∀ ym label, jsParseInt label = none →
      getDayClass (some ym) label = "") := by
  refine ⟨?_, fun label => rfl, ?_⟩
  · intro y m label d hparse hy1 hy2 hm1 hm2 hd1 hd2
    simp only [getDayClass, hparse, refDayClass]
    rw [jsGetDay_eq_refWeekday y m d (by omega) hm1 hm2 hd1]
  · intro ym label hparse
    obtain ⟨y, m⟩ := ym
    simp only [getDayClass, hparse]

/-- Concrete instantiation of `c7_day_class` at 2026-10-12 (a Monday, so
no weekend class) and at the unparsable label `"x"`. -/
theorem c7_day_class_witness :
    (jsParseInt "12" = some 12 ∧
      getDayClass (some (2026, 10)) "12" = refDayClass 2026 10 12) ∧
    (jsParseInt "x" = none ∧ getDayClass (some (2026, 10)) "x" = "") :=
  ⟨⟨by decide,
    c7_day_class.1 2026 10 "12" 12 (by decide) (by decide) (by decide)
      (by decide) (by decide) (by decide) (by decide)⟩,
   ⟨by decide, c7_day_class.2.2 (2026, 10) "x" (by decide)⟩⟩

/-- Object key assignment `custom[name] = values` on the parsed
`shiftPresets` object, modelled on an association list with first-match
lookup. -/
def storeSet (custom : List (String × Settings)) (k : String) (v : Settings) :
    List (String × Settings) :=
  (k, v) :: custom.filter (fun p => decide (p.1 ≠ k))

/-- Object key deletion `delete custom[name]`. -/
def storeErase (custom : List (String × Settings)) (k : String) :
    List (String × Settings) :=
  custom.filter (fun p => decide (p.1 ≠ k))

/-- `{ ...DEFAULT_PRESETS, ...custom }[name]` as read by `loadPresets` and
`applyPreset` (`app.js` lines 74-113): a custom entry shadows the built-in
one because `custom` is spread last. `DEFAULT_PRESETS` has the single key
`"デフォルト"`. -/
def allPresets (custom : List (String × Settings)) (name : String) :
    Option Settings :=
  match custom.lookup name with
  | some v => some v
  | none => if name = "デフォルト" then some DEFAULT_PRESET else none

/-- `savePreset()` (lines 115-136), with the prompted name and the parsed
input values passed explicitly: an empty or whitespace-only name and the
sentinel `"__custom__"` are rejected (no store change); any other name is
trimmed and stored — there is no check against `DEFAULT_PRESETS`. -/
def savePreset (custom : List (String × Settings)) (name : String)
    (values : Settings) : List (String × Settings) :=
  if jsTrim name = "" then custom
  else if jsTrim name = "__custom__" then custom
  else storeSet custom (jsTrim name) values

/-- `deletePreset()` (lines 138-156): the sentinel `"__custom__"` and any
key of `DEFAULT_PRESETS` are refused; otherwise the entry is removed (the
user confirming the dialog). -/
def deletePreset (custom : List (String × Settings)) (name : String) :
    List (String × Settings) :=
  if name = "__custom__" then custom
  else if name = "デフォルト" then custom
  else storeErase custom name

/-- C9 counterexample: from an empty custom store, `savePreset` accepts
the reserved name `"デフォルト"`; the saved entry shadows the built-in, so
applying `"デフォルト"` afterwards yields the user's values instead of the
built-in thresholds — `savePreset` does change what applying the reserved
preset yields, refuting the claimed immutability. -/
theorem c9_counterexample :
    allPresets [] "デフォルト" = some DEFAULT_PRESET ∧
    allPresets (savePreset [] "デフォルト" ⟨0, 0, 0, 0, 0, 0⟩) "デフォルト" =
      some ⟨0, 0, 0, 0, 0, 0⟩ ∧
    (⟨0, 0, 0, 0, 0, 0⟩ : Settings) ≠ DEFAULT_PRESET := by
  refine ⟨by decide, by decide, by decide⟩

/-- C9 amended: `deletePreset` never removes the built-in `"デフォルト"`
(deleting it is a no-op, and applying it always yields values after any
deletion), and the sentinel `"__custom__"` is never accepted as a save or
delete target; however `savePreset` does accept the reserved name
`"デフォルト"`, and the saved entry shadows the built-in, so applying
`"デフォルト"` then yields the saved values. -/
theorem c9_amended :
    (∀ custom : List (String × Settings),
      deletePreset custom "デフォルト" = custom) ∧
    (∀ (custom : List (String × Settings)) (name : String),
      (allPresets (deletePreset custom name) "デフォルト").isSome = true) ∧
    (∀ (custom : List (String × Settings)) (v : Settings),
      savePreset custom "__custom__" v = custom) ∧
    (∀ custom : List (String × Settings),
      deletePreset custom "__custom__" = custom) ∧
    (∀ (custom : List (String × Settings)) (v : Settings),
      allPresets (savePreset custom "デフォルト" v) "デフォルト" = some v) := by
  refine ⟨?_, ?_, ?_, ?_, ?_⟩
  · intro custom
    rw [deletePreset, if_neg (by decide), if_pos rfl]
  · intro custom name
    rw [allPresets]
    cases h : (deletePreset custom name).lookup "デフォルト" <;> simp [h]
  · intro custom v
    rw [savePreset, if_neg (by decide), if_pos (by decide)]
  · intro custom
    rw [deletePreset, if_pos rfl]
  · intro custom v
    rw [savePreset, if_neg (by decide), if_neg (by decide),
      show jsTrim "デフォルト" = "デフォルト" from by decide,
      allPresets, storeSet]
    simp [List.lookup]

/-- One body row of the rendered table (lines 412-451): the row CSS class,
the classified cells, and the three statistics columns. -/
structure RowModel where
  rowClass : String
  cells : List CellModel
  nightBadge : BadgeResult
  dayCount : Nat
  offBadge : BadgeResult
  deriving Repr, DecidableEq

/-- The body-row computation for staff index `i`. -/
def renderRow (settings : Settings) (schedule : List (List String))
    (original : Option (List (List String))) (i numDates : Nat) :
    Except Unit RowModel := do
  let rowClass :=
    if (i : Int) < settings.nightLeaderCount then "leader-row"
    else if (i : Int) < settings.nightEligibleCount then "night-eligible-row"
    else ""
  let cells ← (List.range numDates).mapM (classifyCell schedule original i)
  let stats := rowStats schedule i numDates
  pure { rowClass := rowClass, cells := cells,
         nightBadge :=
           getStatBadge stats.nightCount settings.maxNightShifts "night",
         dayCount := stats.dayCount,
         offBadge := getStatBadge stats.offCount settings.daysOff "off" }

/-- The full render model built by `renderTable` (lines 393-484): weekend
classes for the date header, one `RowModel` per staff row, and the two
daily-total summary rows. -/
structure GridModel where
  headerClasses : List String
  rows : List RowModel
  daySummary : List (Nat × Bool)
  nightSummary : List (Nat × Bool)
  deriving Repr, DecidableEq

/-- `renderTable(staffIds, dates, schedule, original)` with the
`targetMonth` selection passed explicitly. -/
def renderTable (settings : Settings) (monthVal : Option (Nat × Nat))
    (staffIds : List String) (dates : List String)
    (schedule : List (List String))
    (original : Option (List (List String))) : Except Unit GridModel := do
  let rows ← (List.range staffIds.length).mapM
    (fun i => renderRow settings schedule original i dates.length)
  pure { headerClasses := dates.map (getDayClass monthVal),
         rows := rows,
         daySummary :=
           daySummaryRow settings schedule staffIds.length dates.length,
         nightSummary :=
           nightSummaryRow settings schedule staffIds.length dates.length }

theorem mapM_isOk {α β : Type} (l : List α) (f : α → Except Unit β)
    (hf : ∀ a ∈ l, ∃ b, f a = .ok b) : ∃ bs, l.mapM f = .ok bs := by
  induction l with
  | nil => exact ⟨[], rfl⟩
  | cons x xs ih =>
    obtain ⟨b, hb⟩ := hf x (List.mem_cons_self x xs)
    obtain ⟨bs, hbs⟩ := ih (fun a ha => hf a (List.mem_cons_of_mem x ha))
    refine ⟨b :: bs, ?_⟩
    rw [List.mapM_cons, hb, hbs]
    rfl

theorem isFixedJS_isOk_of_lt (o : List (List String)) (i j : Nat)
    (h : i < o.length) : ∃ b, isFixedJS (some o) i j = .ok b :=
  ⟨_, isFixedJS_eq_of_row o (o.get ⟨i, h⟩) i j (List.get?_eq_get h)⟩

theorem classifyCell_isOk (schedule : List (List String))
    (original : Option (List (List String))) (i j : Nat)
    (h : ∃ b, isFixedJS original i j = .ok b) :
    ∃ c, classifyCell schedule original i j = .ok c := by
  obtain ⟨b, hb⟩ := h
  exact ⟨_, by rw [classifyCell, hb]; rfl⟩

theorem renderRow_isOk (settings : Settings) (schedule : List (List String))
    (original : Option (List (List String))) (i numDates : Nat)
    (h : ∀ j, ∃ b, isFixedJS original i j = .ok b) :
    ∃ r, renderRow settings schedule original i numDates = .ok r := by
  obtain ⟨cells, hc⟩ := mapM_isOk (List.range numDates)
    (classifyCell schedule original i)
    (fun j _ => classifyCell_isOk schedule original i j (h j))
  exact ⟨_, by rw [renderRow, hc]; rfl⟩

theorem renderTable_isOk (settings : Settings) (monthVal : Option (Nat × Nat))
    (staffIds dates : List String) (schedule : List (List String))
    (original : Option (List (List String)))
    (h : ∀ i, i < staffIds.length →
      ∀ j, ∃ b, isFixedJS original i j = .ok b) :
    ∃ g, renderTable settings monthVal staffIds dates schedule original =
      .ok g := by
  obtain ⟨rows, hr⟩ := mapM_isOk (List.range staffIds.length)
    (fun i => renderRow settings schedule original i dates.length)
    (fun i hi => renderRow_isOk settings schedule original i dates.length
      (h i (List.mem_range.mp hi)))
  exact ⟨_, by rw [renderTable, hr]; rfl⟩

/-- C8 counterexample: a ragged current matrix — two staff and two dates,
but a schedule holding a single one-cell row — renders successfully: the
missing row and cells are coerced to the empty shift code, the summary
totals are computed, and no error is reported, refuting the claim that
ragged dimensions fail loudly. -/
theorem c8_counterexample :
    renderTable DEFAULT_PRESET none ["A", "B"] ["1", "2"] [["日"]] none =
      .ok { headerClasses := ["", ""],
            rows := [{ rowClass := "leader-row",
                       cells := [⟨"日", "shift-day", false⟩, ⟨"", "", false⟩],
                       nightBadge := .badge .ok 0,
                       dayCount := 1,
                       offBadge := .badge .danger 0 },
                     { rowClass := "leader-row",
                       cells := [⟨"", "", false⟩, ⟨"", "", false⟩],
                       nightBadge := .badge .ok 0,
                       dayCount := 0,
                       offBadge := .badge .danger 0 }],
            daySummary := [(1, true), (0, true)],
            nightSummary := [(0, true), (0, true)] } := by
  rfl

/-- C8 amended: ragged dimensions of the current matrix are silently
coerced, not reported: with no original matrix the grid computation always
succeeds, and a missing staff row or a missing cell reads as the empty
shift code. -/
theorem c8_amended :
    (∀ settings monthVal staffIds dates (schedule : List (List String)),
      ∃ g, renderTable settings monthVal staffIds dates schedule none =
        .ok g) ∧
    (∀ (schedule : List (List String)) (i j : Nat),
      schedule.length ≤ i ∨ (schedule.getD i []).length ≤ j →
      cellShift schedule i j = "") := by
  constructor
  · intro settings monthVal staffIds dates schedule
    exact renderTable_isOk settings monthVal staffIds dates schedule none
      (fun i _ j => ⟨false, rfl⟩)
  · intro schedule i j h
    rw [cellShift]
    cases hi : schedule.get? i with
    | none => rfl
    | some row =>
      show (match row.get? j with
        | none => ""
        | some s => if s = "" then "" else s) = ""
      cases hj : row.get? j with
      | none => rfl
      | some s =>
        exfalso
        have hilen : i < schedule.length := by
          by_contra hge
          rw [List.get?_eq_none.mpr (by omega)] at hi
          exact Option.noConfusion hi
        have hrow : schedule.getD i [] = row := by
          rw [List.getD_eq_getElem?_getD, ← List.get?_eq_getElem?, hi]; rfl
        rcases h with h | h
        · omega
        · rw [hrow] at h
          rw [List.get?_eq_none.mpr h] at hj
          exact Option.noConfusion hj

/-- Concrete instantiation of `c8_amended` at a one-row schedule read at
the missing staff row 1. -/
theorem c8_amended_witness :
    (([["日"]] : List (List String)).length ≤ 1 ∨
      (([["日"]] : List (List String)).getD 1 []).length ≤ 0) ∧
    cellShift [["日"]] 1 0 = "" :=
  ⟨Or.inl (by decide), c8_amended.2 [["日"]] 1 0 (Or.inl (by decide))⟩

/-- C10: a supplied original matrix that lacks the row of some staff index
makes the fixed-cell test crash (`Except.error`, the modelled `TypeError`)
rather than read as unfixed; a missing row of the current matrix reads
safely as empty; an original matrix with a row for every staff index makes
the whole render total; and the crash is reachable in the full grid
computation. -/
theorem c10_original_row_crash :
    (∀ (o : List (List String)) (i j : Nat), o.length ≤ i →
      isFixedJS (some o) i j = .error ()) ∧
    (∀ (schedule : List (List String)) (i j : Nat), schedule.length ≤ i →
      cellShift schedule i j = "") ∧
    (∀ settings monthVal staffIds dates
      (schedule o : List (List String)), staffIds.length ≤ o.length →
      ∃ g, renderTable settings monthVal staffIds dates schedule (some o) =
        .ok g) ∧
    renderTable DEFAULT_PRESET none ["A"] ["1"] [["日"]] (some []) =
      .error () := by
  refine ⟨?_, ?_, ?_, by rfl⟩
  · intro o i j h
    rw [isFixedJS, List.get?_eq_none.mpr h]
  · intro schedule i j h
    rw [cellShift, List.get?_eq_none.mpr h]
  · intro settings monthVal staffIds dates schedule o h
    exact renderTable_isOk settings monthVal staffIds dates schedule (some o)
      (fun i hi j => isFixedJS_isOk_of_lt o i j (by omega))

/-- Concrete instantiation of `c10_original_row_crash` at an empty original
matrix and at a current matrix read past its last row. -/
theorem c10_original_row_crash_witness :
    (([] : List (List String)).length ≤ 0 ∧
      isFixedJS (some []) 0 0 = .error ()) ∧
    (([["日"]] : List (List String)).length ≤ 1 ∧
      cellShift [["日"]] 1 0 = "") :=
  ⟨⟨by decide, c10_original_row_crash.1 [] 0 0 (by decide)⟩,
   ⟨by decide, c10_original_row_crash.2.1 [["日"]] 1 0 (by decide)⟩⟩

end ShiftMaker
